import Mathlib

/-!
Shallow embedding of the aethera-staking accounting core
(programs/staking/src: state.rs, error.rs, helpers.rs, instructions/*).

Amounts, rates, timestamps and lamport balances are u64 in the source;
they are modelled as `Nat` together with the explicit bound `U64_MOD`.
The workspace build profile that fixes the overflow behavior of u64
arithmetic is not part of the sources here; following the spec
("`staked_amount` must never be decremented below zero (reject, do not
wrap)", error kind NumericOverflow for "any addition that would exceed
the integer width"), every u64 operation is modelled as checked: a
result that would leave [0, 2^64) aborts the instruction with
`NumericalOverflow`, and an aborted instruction commits nothing
(Solana rolls back the whole transaction).
-/

def U64_MOD : Nat := 2 ^ 64

/-- Error codes from error.rs (`StakingError`). -/
inductive StakingError where
  | InvalidArgument
  | NumericalOverflow
  | InvalidMintAccount
  | InsufficientBalance
  | InsufficientStake
  | CPINotAllowed
  | UnauthorizedProgramFound
  | RateLimit
  | InvalidUnstakeTime
  | InvalidRewardTime
  | AmountMustBeGreaterThanZero
  deriving DecidableEq, Repr

/-- state.rs `VaultAccount` (the authority's vault / game data). -/
structure VaultAccount where
  authority : Nat
  staked_amount : Nat
  apy_rate : Nat
  deriving DecidableEq, Repr

/-- state.rs `PlayerAccount` (one participant's position). -/
structure PlayerAccount where
  staked_time : Nat
  staked_amount : Nat
  reward_time : Nat
  duration_time : Nat
  reward_amount : Nat
  deriving DecidableEq, Repr

/-- The state an instruction touching one vault and one player can read
or write: the two ledger records plus the native lamport balances of
the vault PDA and the player wallet. -/
structure ProgramState where
  vault : VaultAccount
  player : PlayerAccount
  vault_lamports : Nat
  player_lamports : Nat
  deriving DecidableEq, Repr

/-- helpers.rs `transfer_lamports`: CPI to the system program moving
`lamports` from the player wallet to the vault PDA; the system program
rejects the transfer when the source balance is insufficient (modelled
with the repository's `InsufficientBalance` code), and the destination
balance stays a u64. -/
def transfer_lamports (s : ProgramState) (lamports : Nat) :
    Except StakingError ProgramState :=
  if s.player_lamports < lamports then .error .InsufficientBalance
  else if U64_MOD ≤ s.vault_lamports + lamports then .error .NumericalOverflow
  else .ok { s with player_lamports := s.player_lamports - lamports,
                    vault_lamports := s.vault_lamports + lamports }

/-- helpers.rs `transfer_lamports_from_owned_pda`: direct lamport moves
`**from -= lamports; **to += lamports` from the vault PDA to the
player wallet; both are checked u64 updates. -/
def transfer_lamports_from_owned_pda (s : ProgramState) (lamports : Nat) :
    Except StakingError ProgramState :=
  if s.vault_lamports < lamports then .error .NumericalOverflow
  else if U64_MOD ≤ s.player_lamports + lamports then .error .NumericalOverflow
  else .ok { s with vault_lamports := s.vault_lamports - lamports,
                    player_lamports := s.player_lamports + lamports }

/-- instructions/sol_stake.rs `sol_stake`. -/
def sol_stake (s : ProgramState) (amount duration current_time : Nat) :
    Except StakingError ProgramState :=
  if amount = 0 then .error .AmountMustBeGreaterThanZero
  else if U64_MOD ≤ s.player.staked_amount + amount then .error .NumericalOverflow
  else if U64_MOD ≤ s.vault.staked_amount + amount then .error .NumericalOverflow
  else
    transfer_lamports
      { s with player := { s.player with
                             staked_amount := s.player.staked_amount + amount,
                             staked_time := current_time,
                             duration_time := duration,
                             reward_time := current_time },
               vault := { s.vault with
                            staked_amount := s.vault.staked_amount + amount } }
      amount

/-- instructions/sol_unstake.rs `sol_unstake`. The source computes
`expired = staked_time + duration_time` (checked u64 add), rejects
while `expired > current_time`, then debits the vault counter by the
position's full `staked_amount`, zeroes the position, and pays the
player from the vault PDA. -/
def sol_unstake (s : ProgramState) (current_time : Nat) :
    Except StakingError ProgramState :=
  if U64_MOD ≤ s.player.staked_time + s.player.duration_time then
    .error .NumericalOverflow
  else if current_time < s.player.staked_time + s.player.duration_time then
    .error .InvalidUnstakeTime
  else if s.vault.staked_amount < s.player.staked_amount then
    .error .NumericalOverflow
  else
    transfer_lamports_from_owned_pda
      { s with vault := { s.vault with
                  staked_amount := s.vault.staked_amount - s.player.staked_amount },
               player := { s.player with staked_amount := 0 } }
      s.player.staked_amount

/-- instructions/claim_rewards.rs `claim_rewards`. The source rejects a
zero-stake position, computes `time = current_time - reward_time`
(checked u64 sub), rejects `time <= 0` (zero, for a u64), computes
`rewards = staked_amount * apy_rate * time / 31_536_000` (checked u64
muls, truncating division), debits the vault counter, stamps
`reward_time`, credits `reward_amount`, and pays the player from the
vault PDA. -/
def claim_rewards (s : ProgramState) (current_time : Nat) :
    Except StakingError ProgramState :=
  if s.player.staked_amount = 0 then .error .AmountMustBeGreaterThanZero
  else if current_time < s.player.reward_time then .error .NumericalOverflow
  else if current_time - s.player.reward_time = 0 then .error .InvalidRewardTime
  else if U64_MOD ≤ s.player.staked_amount * s.vault.apy_rate then
    .error .NumericalOverflow
  else if U64_MOD ≤ s.player.staked_amount * s.vault.apy_rate *
      (current_time - s.player.reward_time) then
    .error .NumericalOverflow
  else
    let rewards := s.player.staked_amount * s.vault.apy_rate *
      (current_time - s.player.reward_time) / 31536000
    if s.vault.staked_amount < rewards then .error .NumericalOverflow
    else if U64_MOD ≤ s.player.reward_amount + rewards then .error .NumericalOverflow
    else
      transfer_lamports_from_owned_pda
        { s with vault := { s.vault with
                              staked_amount := s.vault.staked_amount - rewards },
                 player := { s.player with
                               reward_time := current_time,
                               reward_amount := s.player.reward_amount + rewards } }
        rewards

/-- instructions/config.rs `config`: sets `apy_rate`, touches nothing
else in the vault record, and cannot fail once the record exists. -/
def config (vault_data : VaultAccount) (apy_rate : Nat) : VaultAccount :=
  { vault_data with apy_rate := apy_rate }

/-- instructions/deposit.rs `deposit`. -/
def deposit (s : ProgramState) (amount : Nat) :
    Except StakingError ProgramState :=
  if amount = 0 then .error .AmountMustBeGreaterThanZero
  else if U64_MOD ≤ s.vault.staked_amount + amount then .error .NumericalOverflow
  else
    transfer_lamports
      { s with vault := { s.vault with
                            staked_amount := s.vault.staked_amount + amount } }
      amount

/-- The reward formula of claim_rewards.rs, as a plain function of the
three u64 inputs: `staked_amount * apy_rate * elapsed / 31_536_000`
with truncating division. -/
def reward_formula (staked_amount apy_rate time : Nat) : Nat :=
  staked_amount * apy_rate * time / 31536000

/-- Transaction commit semantics of the host runtime: an instruction
that returns an error commits nothing — the pre-state stands. -/
def commitState (s : ProgramState) (r : Except StakingError ProgramState) :
    ProgramState :=
  match r with
  | .ok s2 => s2
  | .error _ => s

/-- A state in which the vault counter was already drained (e.g. right
after the authority's sweeping Withdraw) while a position of 5 staked
units is still outstanding, its lock expired. -/
def sweptState : ProgramState :=
  { vault := { authority := 1, staked_amount := 0, apy_rate := 100 },
    player := { staked_time := 0, staked_amount := 5, reward_time := 0,
                duration_time := 0, reward_amount := 0 },
    vault_lamports := 100, player_lamports := 100 }

/-- A well-funded vault with one active position: 1_000_000 staked at
time 1000 for a lock of 86400 seconds. -/
def fundedState : ProgramState :=
  { vault := { authority := 1, staked_amount := 2000000000, apy_rate := 100 },
    player := { staked_time := 1000, staked_amount := 1000000, reward_time := 1000,
                duration_time := 86400, reward_amount := 0 },
    vault_lamports := 3000000000, player_lamports := 500 }

/-- `fundedState` after a successful Unstake at time 87400. -/
def unstakedState : ProgramState :=
  { vault := { authority := 1, staked_amount := 1999000000, apy_rate := 100 },
    player := { staked_time := 1000, staked_amount := 0, reward_time := 1000,
                duration_time := 86400, reward_amount := 0 },
    vault_lamports := 2999000000, player_lamports := 1000500 }

/-- The spec's reward example: 1_000_000 staked at rate 100 since time 0,
claimed after exactly one 365-day year (31_536_000 seconds). -/
def yearState : ProgramState :=
  { vault := { authority := 1, staked_amount := 200000000, apy_rate := 100 },
    player := { staked_time := 0, staked_amount := 1000000, reward_time := 0,
                duration_time := 0, reward_amount := 0 },
    vault_lamports := 300000000, player_lamports := 7 }

/-- A position holding no stake (`staked_amount = 0`), lock expired. -/
def idleState : ProgramState :=
  { vault := { authority := 1, staked_amount := 50, apy_rate := 10 },
    player := { staked_time := 3, staked_amount := 0, reward_time := 5,
                duration_time := 4, reward_amount := 7 },
    vault_lamports := 100, player_lamports := 200 }

/-- A position whose `staked_time + duration_time` reaches 2^64. -/
def overflowState : ProgramState :=
  { vault := { authority := 1, staked_amount := 100, apy_rate := 10 },
    player := { staked_time := 2 ^ 63, staked_amount := 5, reward_time := 0,
                duration_time := 2 ^ 63, reward_amount := 0 },
    vault_lamports := 100, player_lamports := 0 }

theorem transfer_lamports_ok (s : ProgramState) (lamports : Nat)
    (h1 : lamports ≤ s.player_lamports)
    (h2 : s.vault_lamports + lamports < U64_MOD) :
    transfer_lamports s lamports =
      .ok { s with player_lamports := s.player_lamports - lamports,
                   vault_lamports := s.vault_lamports + lamports } := by
  rw [transfer_lamports, if_neg (by omega), if_neg (by omega)]

theorem transfer_pda_ok (s : ProgramState) (lamports : Nat)
    (h1 : lamports ≤ s.vault_lamports)
    (h2 : s.player_lamports + lamports < U64_MOD) :
    transfer_lamports_from_owned_pda s lamports =
      .ok { s with vault_lamports := s.vault_lamports - lamports,
                   player_lamports := s.player_lamports + lamports } := by
  rw [transfer_lamports_from_owned_pda, if_neg (by omega), if_neg (by omega)]

theorem sol_unstake_run (s : ProgramState) (t : Nat)
    (h1 : s.player.staked_time + s.player.duration_time < U64_MOD)
    (h2 : s.player.staked_time + s.player.duration_time ≤ t)
    (h3 : s.player.staked_amount ≤ s.vault.staked_amount)
    (h4 : s.player.staked_amount ≤ s.vault_lamports)
    (h5 : s.player_lamports + s.player.staked_amount < U64_MOD) :
    sol_unstake s t = .ok
      { vault := { s.vault with
                     staked_amount := s.vault.staked_amount - s.player.staked_amount },
        player := { s.player with staked_amount := 0 },
        vault_lamports := s.vault_lamports - s.player.staked_amount,
        player_lamports := s.player_lamports + s.player.staked_amount } := by
  rw [sol_unstake, if_neg (by omega), if_neg (by omega), if_neg (by omega)]
  exact transfer_pda_ok _ _ h4 h5

theorem sol_unstake_ok_inv (s s2 : ProgramState) (t : Nat)
    (h : sol_unstake s t = .ok s2) :
    s.player.staked_time + s.player.duration_time < U64_MOD ∧
    s.player.staked_time + s.player.duration_time ≤ t ∧
    s.player.staked_amount ≤ s.vault.staked_amount ∧
    s.player.staked_amount ≤ s.vault_lamports ∧
    s.player_lamports + s.player.staked_amount < U64_MOD ∧
    s2 = { vault := { s.vault with
                        staked_amount := s.vault.staked_amount - s.player.staked_amount },
           player := { s.player with staked_amount := 0 },
           vault_lamports := s.vault_lamports - s.player.staked_amount,
           player_lamports := s.player_lamports + s.player.staked_amount } := by
  rw [sol_unstake, transfer_lamports_from_owned_pda] at h
  dsimp only at h
  split_ifs at h with h1 h2 h3 h4 h5
  · exact ⟨by omega, by omega, by omega, by omega, by omega,
      (Except.ok.injEq _ _).mp h |>.symm⟩

theorem claim_rewards_run (s : ProgramState) (t : Nat)
    (h1 : s.player.staked_amount ≠ 0)
    (h2 : s.player.reward_time < t)
    (h3 : s.player.staked_amount * s.vault.apy_rate * (t - s.player.reward_time) <
            U64_MOD)
    (h4 : reward_formula s.player.staked_amount s.vault.apy_rate
            (t - s.player.reward_time) ≤ s.vault.staked_amount)
    (h5 : s.player.reward_amount + reward_formula s.player.staked_amount
            s.vault.apy_rate (t - s.player.reward_time) < U64_MOD)
    (h6 : reward_formula s.player.staked_amount s.vault.apy_rate
            (t - s.player.reward_time) ≤ s.vault_lamports)
    (h7 : s.player_lamports + reward_formula s.player.staked_amount s.vault.apy_rate
            (t - s.player.reward_time) < U64_MOD) :
    claim_rewards s t = .ok
      { vault := { s.vault with
          staked_amount := s.vault.staked_amount - reward_formula
            s.player.staked_amount s.vault.apy_rate (t - s.player.reward_time) },
        player := { s.player with
          reward_time := t,
          reward_amount := s.player.reward_amount + reward_formula
            s.player.staked_amount s.vault.apy_rate (t - s.player.reward_time) },
        vault_lamports := s.vault_lamports - reward_formula s.player.staked_amount
          s.vault.apy_rate (t - s.player.reward_time),
        player_lamports := s.player_lamports + reward_formula s.player.staked_amount
          s.vault.apy_rate (t - s.player.reward_time) } := by
  have hmul1 : s.player.staked_amount * s.vault.apy_rate < U64_MOD := by
    have hle : s.player.staked_amount * s.vault.apy_rate * 1 ≤
        s.player.staked_amount * s.vault.apy_rate * (t - s.player.reward_time) :=
      Nat.mul_le_mul_left _ (by omega)
    omega
  rw [claim_rewards]
  rw [if_neg h1, if_neg (by omega), if_neg (by omega), if_neg (by omega),
      if_neg (by omega)]
  dsimp only
  rw [if_neg (by rw [reward_formula] at h4; omega),
      if_neg (by rw [reward_formula] at h5; omega)]
  rw [transfer_lamports_from_owned_pda]
  dsimp only
  rw [if_neg (by rw [reward_formula] at h6; omega),
      if_neg (by rw [reward_formula] at h7; omega), reward_formula]

theorem claim_rewards_ok_inv (s s2 : ProgramState) (t : Nat)
    (h : claim_rewards s t = .ok s2) :
    s.player.staked_amount ≠ 0 ∧
    s.player.reward_time < t ∧
    s.player.staked_amount * s.vault.apy_rate * (t - s.player.reward_time) <
      U64_MOD ∧
    reward_formula s.player.staked_amount s.vault.apy_rate
      (t - s.player.reward_time) ≤ s.vault.staked_amount ∧
    s2 = { vault := { s.vault with
             staked_amount := s.vault.staked_amount - reward_formula
               s.player.staked_amount s.vault.apy_rate (t - s.player.reward_time) },
           player := { s.player with
             reward_time := t,
             reward_amount := s.player.reward_amount + reward_formula
               s.player.staked_amount s.vault.apy_rate (t - s.player.reward_time) },
           vault_lamports := s.vault_lamports - reward_formula s.player.staked_amount
             s.vault.apy_rate (t - s.player.reward_time),
           player_lamports := s.player_lamports + reward_formula s.player.staked_amount
             s.vault.apy_rate (t - s.player.reward_time) } := by
  rw [claim_rewards] at h
  dsimp only at h
  rw [transfer_lamports_from_owned_pda] at h
  dsimp only at h
  rw [reward_formula]
  split_ifs at h with h1 h2 h3 h4 h5 h6 h7 h8 h9
  · exact ⟨h1, by omega, by omega, by omega,
      ((Except.ok.injEq _ _).mp h).symm⟩

theorem sol_stake_run (s : ProgramState) (amount duration t : Nat)
    (h1 : amount ≠ 0)
    (h2 : s.player.staked_amount + amount < U64_MOD)
    (h3 : s.vault.staked_amount + amount < U64_MOD)
    (h4 : amount ≤ s.player_lamports)
    (h5 : s.vault_lamports + amount < U64_MOD) :
    sol_stake s amount duration t = .ok
      { vault := { s.vault with staked_amount := s.vault.staked_amount + amount },
        player := { s.player with
                      staked_amount := s.player.staked_amount + amount,
                      staked_time := t, duration_time := duration, reward_time := t },
        vault_lamports := s.vault_lamports + amount,
        player_lamports := s.player_lamports - amount } := by
  rw [sol_stake, if_neg h1, if_neg (by omega), if_neg (by omega), transfer_lamports]
  dsimp only
  rw [if_neg (by omega), if_neg (by omega)]

theorem deposit_run (s : ProgramState) (amount : Nat)
    (h1 : amount ≠ 0)
    (h2 : s.vault.staked_amount + amount < U64_MOD)
    (h3 : amount ≤ s.player_lamports)
    (h4 : s.vault_lamports + amount < U64_MOD) :
    deposit s amount = .ok
      { vault := { s.vault with staked_amount := s.vault.staked_amount + amount },
        player := s.player,
        vault_lamports := s.vault_lamports + amount,
        player_lamports := s.player_lamports - amount } := by
  rw [deposit, if_neg h1, if_neg (by omega), transfer_lamports]
  dsimp only
  rw [if_neg (by omega), if_neg (by omega)]

/-- Claim C1: staked amounts are modelled in ℕ (u64), so they are never
negative; an Unstake or ClaimRewards whose debit of
`VaultAccount.staked_amount` would exceed its current value returns an
error and commits nothing (the pre-state stands); and a successful
Unstake debit only happens when it is covered, producing the exact
difference — the counter is never wrapped below zero. -/
theorem claim_C1_debits_rejected (s : ProgramState) (t : Nat) :
    (s.vault.staked_amount < s.player.staked_amount →
       (∃ e, sol_unstake s t = .error e) ∧ commitState s (sol_unstake s t) = s) ∧
    (s.vault.staked_amount < reward_formula s.player.staked_amount s.vault.apy_rate
        (t - s.player.reward_time) →
       (∃ e, claim_rewards s t = .error e) ∧ commitState s (claim_rewards s t) = s) ∧
    (∀ s2, sol_unstake s t = .ok s2 →
       s.player.staked_amount ≤ s.vault.staked_amount ∧
       s2.vault.staked_amount = s.vault.staked_amount - s.player.staked_amount) := by
  refine ⟨?_, ?_, ?_⟩
  · intro hlt
    cases hres : sol_unstake s t with
    | error e => exact ⟨⟨e, rfl⟩, rfl⟩
    | ok s2 => exact absurd (sol_unstake_ok_inv s s2 t hres).2.2.1 (by omega)
  · intro hlt
    cases hres : claim_rewards s t with
    | error e => exact ⟨⟨e, rfl⟩, rfl⟩
    | ok s2 => exact absurd (claim_rewards_ok_inv s s2 t hres).2.2.2.1 (by omega)
  · intro s2 hres
    have hinv := sol_unstake_ok_inv s s2 t hres
    refine ⟨hinv.2.2.1, ?_⟩
    rw [hinv.2.2.2.2.2]

/-- Witness for C1: in `sweptState` the vault counter (0) cannot cover
the position's 5 staked units, and Unstake fails cleanly. -/
theorem claim_C1_witness :
    (∃ e, sol_unstake sweptState 10 = .error e) ∧
    commitState sweptState (sol_unstake sweptState 10) = sweptState :=
  (claim_C1_debits_rejected sweptState 10).1 (by decide)

/-- Claim C2: for a position with positive stake and strictly positive
elapsed time, ClaimRewards credits and transfers exactly
`staked_amount * apy_rate * elapsed / 31_536_000` (truncating integer
division), provided the u64 product does not overflow and the vault
counter and PDA balance cover the reward. -/
theorem claim_C2_reward_formula_exact (s : ProgramState) (t : Nat)
    (h1 : 0 < s.player.staked_amount)
    (h2 : s.player.reward_time < t)
    (h3 : s.player.staked_amount * s.vault.apy_rate * (t - s.player.reward_time) <
            U64_MOD)
    (h4 : reward_formula s.player.staked_amount s.vault.apy_rate
            (t - s.player.reward_time) ≤ s.vault.staked_amount)
    (h5 : s.player.reward_amount + reward_formula s.player.staked_amount
            s.vault.apy_rate (t - s.player.reward_time) < U64_MOD)
    (h6 : reward_formula s.player.staked_amount s.vault.apy_rate
            (t - s.player.reward_time) ≤ s.vault_lamports)
    (h7 : s.player_lamports + reward_formula s.player.staked_amount s.vault.apy_rate
            (t - s.player.reward_time) < U64_MOD) :
    ∃ s2, claim_rewards s t = .ok s2 ∧
      s2.player.reward_amount = s.player.reward_amount + reward_formula
        s.player.staked_amount s.vault.apy_rate (t - s.player.reward_time) ∧
      s2.vault.staked_amount = s.vault.staked_amount - reward_formula
        s.player.staked_amount s.vault.apy_rate (t - s.player.reward_time) ∧
      s2.player_lamports = s.player_lamports + reward_formula
        s.player.staked_amount s.vault.apy_rate (t - s.player.reward_time) ∧
      s2.vault_lamports = s.vault_lamports - reward_formula
        s.player.staked_amount s.vault.apy_rate (t - s.player.reward_time) ∧
      s2.player.reward_time = t :=
  ⟨_, claim_rewards_run s t (by omega) h2 h3 h4 h5 h6 h7,
   rfl, rfl, rfl, rfl, rfl⟩

/-- Witness for C2: the spec's example — 1_000_000 staked at rate 100
for one 365-day year pays exactly 100_000_000. -/
theorem claim_C2_witness :
    ∃ s2, claim_rewards yearState 31536000 = .ok s2 ∧
      s2.player.reward_amount = 100000000 ∧
      s2.vault.staked_amount = 100000000 ∧
      s2.player_lamports = 100000007 ∧
      s2.vault_lamports = 200000000 ∧
      s2.player.reward_time = 31536000 :=
  claim_C2_reward_formula_exact yearState 31536000 (by decide) (by decide)
    (by decide) (by decide) (by decide) (by decide) (by decide)

/-- Claim C3: with an in-range unlock boundary, Unstake strictly before
`staked_time + duration_time` fails with InvalidUnstakeTime and commits
nothing; at or after the boundary (with the vault counter and PDA
balance covering the position) it succeeds, zeroes the position, and
debits the vault counter by the previous stake. -/
theorem claim_C3_unstake_gating (s : ProgramState) (t : Nat)
    (hsum : s.player.staked_time + s.player.duration_time < U64_MOD) :
    (t < s.player.staked_time + s.player.duration_time →
       sol_unstake s t = .error .InvalidUnstakeTime ∧
       commitState s (sol_unstake s t) = s) ∧
    (s.player.staked_time + s.player.duration_time ≤ t →
       s.player.staked_amount ≤ s.vault.staked_amount →
       s.player.staked_amount ≤ s.vault_lamports →
       s.player_lamports + s.player.staked_amount < U64_MOD →
       ∃ s2, sol_unstake s t = .ok s2 ∧ s2.player.staked_amount = 0 ∧
         s2.vault.staked_amount = s.vault.staked_amount - s.player.staked_amount) := by
  constructor
  · intro hlt
    have he : sol_unstake s t = .error .InvalidUnstakeTime := by
      rw [sol_unstake, if_neg (by omega), if_pos (by omega)]
    exact ⟨he, by rw [he]; rfl⟩
  · intro h1 h2 h3 h4
    exact ⟨_, sol_unstake_run s t hsum h1 h2 h3 h4, rfl, rfl⟩

/-- Witness for C3: the boundary of `fundedState` is 1000 + 86400 =
87400; Unstake fails at 87399 and succeeds at 87400. -/
theorem claim_C3_witness :
    (sol_unstake fundedState 87399 = .error .InvalidUnstakeTime ∧
     commitState fundedState (sol_unstake fundedState 87399) = fundedState) ∧
    (∃ s2, sol_unstake fundedState 87400 = .ok s2 ∧
       s2.player.staked_amount = 0 ∧
       s2.vault.staked_amount = 1999000000) :=
  ⟨(claim_C3_unstake_gating fundedState 87399 (by decide)).1 (by decide),
   (claim_C3_unstake_gating fundedState 87400 (by decide)).2 (by decide) (by decide)
     (by decide) (by decide)⟩

/-- Claim C4: ClaimRewards fails with AmountMustBeGreaterThanZero when
the position's stake is zero (checked first), fails with
InvalidRewardTime when the stake is positive but the elapsed time
`now - reward_time` is zero, and — given a monotone clock, no u64
overflow and a sufficiently funded vault — succeeds exactly when the
stake is positive and the elapsed time is strictly positive. -/
theorem claim_C4_claim_preconditions (s : ProgramState) (t : Nat)
    (hclock : s.player.reward_time ≤ t)
    (h3 : s.player.staked_amount * s.vault.apy_rate * (t - s.player.reward_time) <
            U64_MOD)
    (h4 : reward_formula s.player.staked_amount s.vault.apy_rate
            (t - s.player.reward_time) ≤ s.vault.staked_amount)
    (h5 : s.player.reward_amount + reward_formula s.player.staked_amount
            s.vault.apy_rate (t - s.player.reward_time) < U64_MOD)
    (h6 : reward_formula s.player.staked_amount s.vault.apy_rate
            (t - s.player.reward_time) ≤ s.vault_lamports)
    (h7 : s.player_lamports + reward_formula s.player.staked_amount s.vault.apy_rate
            (t - s.player.reward_time) < U64_MOD) :
    (s.player.staked_amount = 0 →
       claim_rewards s t = .error .AmountMustBeGreaterThanZero) ∧
    (s.player.staked_amount ≠ 0 → t - s.player.reward_time = 0 →
       claim_rewards s t = .error .InvalidRewardTime) ∧
    ((∃ s2, claim_rewards s t = .ok s2) ↔
       0 < s.player.staked_amount ∧ s.player.reward_time < t) := by
  refine ⟨?_, ?_, ?_⟩
  · intro h0
    rw [claim_rewards, if_pos h0]
  · intro hne hz
    rw [claim_rewards, if_neg hne, if_neg (by omega), if_pos hz]
  · constructor
    · rintro ⟨s2, hs2⟩
      have hinv := claim_rewards_ok_inv s s2 t hs2
      exact ⟨Nat.pos_of_ne_zero hinv.1, hinv.2.1⟩
    · rintro ⟨hpos, hlt⟩
      exact ⟨_, claim_rewards_run s t (by omega) hlt h3 h4 h5 h6 h7⟩

/-- Witness for C4: the zero-stake `idleState` is rejected with
AmountMustBeGreaterThanZero; `fundedState` claimed at its own
`reward_time` (elapsed 0) is rejected with InvalidRewardTime; and
`fundedState` claimed one second later succeeds. -/
theorem claim_C4_witness :
    claim_rewards idleState 5 = .error .AmountMustBeGreaterThanZero ∧
    claim_rewards fundedState 1000 = .error .InvalidRewardTime ∧
    (∃ s2, claim_rewards fundedState 1001 = .ok s2) :=
  ⟨(claim_C4_claim_preconditions idleState 5 (by decide) (by decide) (by decide)
      (by decide) (by decide) (by decide)).1 (by decide),
   (claim_C4_claim_preconditions fundedState 1000 (by decide) (by decide) (by decide)
      (by decide) (by decide) (by decide)).2.1 (by decide) (by decide),
   (claim_C4_claim_preconditions fundedState 1001 (by decide) (by decide) (by decide)
      (by decide) (by decide) (by decide)).2.2.mpr ⟨by decide, by decide⟩⟩

/-- Claim C5: a Stake of a positive amount (within u64 range and funded
by the player's wallet) adds the amount to the position and to the
vault counter, stamps `staked_time` and `reward_time` with the current
time, overwrites `duration_time`, and leaves `reward_amount`,
`authority` and `apy_rate` untouched — with no precondition on the
prior position, so it also holds while an earlier stake is active. -/
theorem claim_C5_stake_effect (s : ProgramState) (amount duration t : Nat)
    (h1 : 0 < amount)
    (h2 : s.player.staked_amount + amount < U64_MOD)
    (h3 : s.vault.staked_amount + amount < U64_MOD)
    (h4 : amount ≤ s.player_lamports)
    (h5 : s.vault_lamports + amount < U64_MOD) :
    ∃ s2, sol_stake s amount duration t = .ok s2 ∧
      s2.player.staked_amount = s.player.staked_amount + amount ∧
      s2.player.staked_time = t ∧
      s2.player.reward_time = t ∧
      s2.player.duration_time = duration ∧
      s2.player.reward_amount = s.player.reward_amount ∧
      s2.vault.staked_amount = s.vault.staked_amount + amount ∧
      s2.vault.authority = s.vault.authority ∧
      s2.vault.apy_rate = s.vault.apy_rate :=
  ⟨_, sol_stake_run s amount duration t (by omega) h2 h3 h4 h5,
   rfl, rfl, rfl, rfl, rfl, rfl, rfl, rfl⟩

/-- Witness for C5: staking 300 more at time 2000 on top of
`fundedState`'s still-active position restarts both clocks, overwrites
the lock duration, and leaves the credited rewards untouched. -/
theorem claim_C5_witness :
    ∃ s2, sol_stake fundedState 300 999999 2000 = .ok s2 ∧
      s2.player.staked_amount = 1000300 ∧
      s2.player.staked_time = 2000 ∧
      s2.player.reward_time = 2000 ∧
      s2.player.duration_time = 999999 ∧
      s2.player.reward_amount = 0 ∧
      s2.vault.staked_amount = 2000000300 ∧
      s2.vault.authority = 1 ∧
      s2.vault.apy_rate = 100 :=
  claim_C5_stake_effect fundedState 300 999999 2000 (by decide) (by decide)
    (by decide) (by decide) (by decide)

/-- Claim C6: a successful Unstake is frame-preserving on the position's
`reward_time`, `reward_amount`, `duration_time` and `staked_time` — no
reward settlement happens inside Unstake, so accrual pending since
`reward_time` stays claimable separately. -/
theorem claim_C6_unstake_frame (s s2 : ProgramState) (t : Nat)
    (h : sol_unstake s t = .ok s2) :
    s2.player.reward_time = s.player.reward_time ∧
    s2.player.reward_amount = s.player.reward_amount ∧
    s2.player.duration_time = s.player.duration_time ∧
    s2.player.staked_time = s.player.staked_time := by
  have hinv := sol_unstake_ok_inv s s2 t h
  rw [hinv.2.2.2.2.2]
  exact ⟨rfl, rfl, rfl, rfl⟩

/-- Witness for C6: the successful Unstake of `fundedState` at 87400
yields `unstakedState`, whose reward and timing fields are unchanged. -/
theorem claim_C6_witness :
    sol_unstake fundedState 87400 = .ok unstakedState ∧
    (unstakedState.player.reward_time = fundedState.player.reward_time ∧
     unstakedState.player.reward_amount = fundedState.player.reward_amount ∧
     unstakedState.player.duration_time = fundedState.player.duration_time ∧
     unstakedState.player.staked_time = fundedState.player.staked_time) :=
  ⟨rfl, claim_C6_unstake_frame fundedState unstakedState 87400 rfl⟩

/-- Claim C7: each operation is all-or-nothing — whenever Deposit,
Stake, Unstake or ClaimRewards returns an error, the committed state is
the unchanged pre-state (ledgers and lamport balances alike); and the
value-transfer step failing for insufficient funds is such an error:
a Deposit the player cannot fund returns InsufficientBalance even
though the vault-counter write precedes the transfer in the source. -/
theorem claim_C7_all_or_nothing (s : ProgramState) (amount duration t : Nat)
    (e : StakingError) :
    (deposit s amount = .error e → commitState s (deposit s amount) = s) ∧
    (sol_stake s amount duration t = .error e →
       commitState s (sol_stake s amount duration t) = s) ∧
    (sol_unstake s t = .error e → commitState s (sol_unstake s t) = s) ∧
    (claim_rewards s t = .error e → commitState s (claim_rewards s t) = s) ∧
    (amount ≠ 0 → s.vault.staked_amount + amount < U64_MOD →
       s.player_lamports < amount →
       deposit s amount = .error .InsufficientBalance) := by
  refine ⟨?_, ?_, ?_, ?_, ?_⟩
  · intro h; rw [h]; rfl
  · intro h; rw [h]; rfl
  · intro h; rw [h]; rfl
  · intro h; rw [h]; rfl
  · intro h1 h2 h3
    rw [deposit, if_neg h1, if_neg (by omega), transfer_lamports]
    dsimp only
    rw [if_pos h3]

/-- Witness for C7: `fundedState`'s player wallet holds 500 lamports, so
a Deposit of 1000 fails in the transfer step and commits nothing. -/
theorem claim_C7_witness :
    deposit fundedState 1000 = .error .InsufficientBalance ∧
    commitState fundedState (deposit fundedState 1000) = fundedState := by
  have happ := claim_C7_all_or_nothing fundedState 1000 0 0 .InsufficientBalance
  have hdep := happ.2.2.2.2 (by decide) (by decide) (by decide)
  exact ⟨hdep, happ.1 hdep⟩

/-- Claim C8: Configure is idempotent on the vault record — applying it
twice with the same rate equals applying it once, and a single
application changes neither `staked_amount` nor `authority`. -/
theorem claim_C8_config_idempotent (v : VaultAccount) (rate : Nat) :
    config (config v rate) rate = config v rate ∧
    (config v rate).staked_amount = v.staked_amount ∧
    (config v rate).authority = v.authority :=
  ⟨rfl, rfl, rfl⟩

/-- Claim C9: Unstake performs no zero-stake check — on a position with
`staked_amount = 0` whose in-range lock boundary has passed, it returns
Ok with amount 0 and the whole state (both ledgers and both balances)
unchanged, while ClaimRewards on the same state is rejected with
AmountMustBeGreaterThanZero. -/
theorem claim_C9_zero_stake_unstake (s : ProgramState) (t : Nat)
    (hz : s.player.staked_amount = 0)
    (hsum : s.player.staked_time + s.player.duration_time < U64_MOD)
    (hexp : s.player.staked_time + s.player.duration_time ≤ t)
    (hpl : s.player_lamports < U64_MOD) :
    sol_unstake s t = .ok s ∧
    claim_rewards s t = .error .AmountMustBeGreaterThanZero := by
  obtain ⟨⟨a, va, r⟩, ⟨st, pa, rt, dt, ra⟩, vl, pl⟩ := s
  dsimp only at hz hsum hexp hpl
  subst hz
  constructor
  · exact sol_unstake_run _ t hsum hexp (by dsimp only; omega)
      (by dsimp only; omega) (by dsimp only; omega)
  · rw [claim_rewards]
    dsimp only
    rw [if_pos rfl]

/-- Witness for C9: in `idleState` (stake 0, boundary 3 + 4 = 7 passed
at time 10) Unstake succeeds and changes nothing, while ClaimRewards is
rejected. -/
theorem claim_C9_witness :
    sol_unstake idleState 10 = .ok idleState ∧
    claim_rewards idleState 10 = .error .AmountMustBeGreaterThanZero :=
  claim_C9_zero_stake_unstake idleState 10 (by decide) (by decide) (by decide)
    (by decide)

/-- C10 counterexample: at the claim's own kind of input — `staked_time`
and `duration_time` whose u64 sum reaches 2^64 (here 2^63 + 2^63) with
the current time far below the wrapped value — Unstake does not succeed
early: the checked boundary addition aborts with NumericalOverflow. -/
theorem claim_C10_counterexample :
    sol_unstake overflowState 10 = .error .NumericalOverflow := rfl

/-- Claim C10 (amended): the unlock boundary is written as the plain
64-bit sum `staked_time + duration_time` in the source, but under the
checked u64 arithmetic the spec mandates ("reject, do not wrap") a sum
reaching 2^64 makes Unstake fail with NumericalOverflow for every
current time — the boundary never wraps below the current time and
Unstake never succeeds before the chosen lock duration has elapsed. -/
theorem claim_C10_boundary_overflow_aborts (s : ProgramState) (t : Nat)
    (h : U64_MOD ≤ s.player.staked_time + s.player.duration_time) :
    sol_unstake s t = .error .NumericalOverflow := by
  rw [sol_unstake, if_pos h]

/-- Witness for C10: `overflowState`'s boundary sum is 2^63 + 2^63 =
2^64, and Unstake at time 10 aborts with NumericalOverflow. -/
theorem claim_C10_witness :
    U64_MOD ≤ overflowState.player.staked_time + overflowState.player.duration_time ∧
    sol_unstake overflowState 10 = .error .NumericalOverflow :=
  ⟨by decide, claim_C10_boundary_overflow_aborts overflowState 10 (by decide)⟩
